import Mathlib

/-!
Verification of the ARTCheckAnalysis care-continuum checking scripts.

The definitions below are a shallow embedding of src/art-checks.py (sharing
parse_data_line with src/plotting.py).  Python numbers are modelled as Int
(counts) and Rat (float arithmetic); Python runtime errors (IndexError,
AssertionError, ZeroDivisionError, TypeError on adding None) are modelled by
Option, with none denoting a raised error or an absent return value.
-/

namespace ART

/-- Truncation toward zero, the behaviour of Python int() on a float value. -/
def truncToInt (q : ℚ) : Int := if 0 ≤ q then ⌊q⌋ else ⌈q⌉

/-- Gender stratification (class Genders): two counts, males and females. -/
structure Genders where
  males : Int
  females : Int
  deriving DecidableEq

/-- Genders construction: asserts the data slice has exactly two entries. -/
def Genders.init (gender_data : List Int) : Option Genders :=
  if gender_data.length = 2 then
    some ⟨gender_data.getD 0 0, gender_data.getD 1 0⟩
  else none

/-- Sum of males and females, the total count of this record. -/
def Genders.sum (g : Genders) : Int := g.males + g.females

/-- Orientation stratification (class Orientations): MSM, MSMW, MSW. -/
structure Orientations where
  MSM : Int
  MSMW : Int
  MSW : Int
  deriving DecidableEq

/-- Orientations construction: asserts the data slice has exactly three entries. -/
def Orientations.init (orientation_data : List Int) : Option Orientations :=
  if orientation_data.length = 3 then
    some ⟨orientation_data.getD 0 0, orientation_data.getD 1 0, orientation_data.getD 2 0⟩
  else none

/-- Ethnicity stratification (class Ethnicities): six hispanic/non-hispanic cells. -/
structure Ethnicities where
  BLACK_NON_HISPANIC : Int
  BLACK_HISPANIC : Int
  WHITE_NON_HISPANIC : Int
  WHITE_HISPANIC : Int
  OTHER_NON_HISPANIC : Int
  OTHER_HISPANIC : Int
  deriving DecidableEq

/-- Ethnicities construction: asserts the data slice has exactly six entries. -/
def Ethnicities.init (ethnicity_data : List Int) : Option Ethnicities :=
  if ethnicity_data.length = 6 then
    some ⟨ethnicity_data.getD 0 0, ethnicity_data.getD 1 0, ethnicity_data.getD 2 0,
          ethnicity_data.getD 3 0, ethnicity_data.getD 4 0, ethnicity_data.getD 5 0⟩
  else none

/-- Whites getter: the white non-hispanic cell only. -/
def Ethnicities.get_whites (e : Ethnicities) : Int := e.WHITE_NON_HISPANIC

/-- Blacks getter: the black non-hispanic cell only. -/
def Ethnicities.get_blacks (e : Ethnicities) : Int := e.BLACK_NON_HISPANIC

/-- Other races getter: the other non-hispanic cell only. -/
def Ethnicities.get_other_races (e : Ethnicities) : Int := e.OTHER_NON_HISPANIC

/-- Hispanics getter: the union of the three hispanic cells. -/
def Ethnicities.get_hispanics (e : Ethnicities) : Int :=
  e.BLACK_HISPANIC + e.WHITE_HISPANIC + e.OTHER_HISPANIC

/-- A quantity of interest (class QoI): gender, orientation and ethnicity breakdowns. -/
structure QoI where
  gender : Genders
  orientation : Orientations
  ethnicity : Ethnicities
  deriving DecidableEq

/-- QoI construction from an input vector: slices [0:2], [2:5] and [5:11] feed the
three breakdowns, each of which asserts its own slice length. -/
def QoI.init (QoI_data : List Int) : Option QoI := do
  let g ← Genders.init (QoI_data.take 2)
  let o ← Orientations.init ((QoI_data.drop 2).take 3)
  let e ← Ethnicities.init ((QoI_data.drop 5).take 6)
  some ⟨g, o, e⟩

/-- Total number of people in this QoI: the sum of its gender stratification. -/
def QoI.get_total_number (q : QoI) : Int := q.gender.sum

/-- Demographic-filtered count.  An unrecognized demographic name prints a warning
and returns no value, modelled as none. -/
def QoI.get_demographic (q : QoI) (demographic : String) : Option Int :=
  if demographic = "WHITE" then some q.ethnicity.get_whites
  else if demographic = "BLACK" then some q.ethnicity.get_blacks
  else if demographic = "HISPANIC" then some q.ethnicity.get_hispanics
  else if demographic = "OTHER" then some q.ethnicity.get_other_races
  else if demographic = "TOTAL" then some q.gender.sum
  else none

/-- One monthly row of ARTRollout data (class Node). -/
structure Node where
  time : Int
  population : Int
  infected : QoI
  detected : QoI
  in_care : QoI
  new_diagnosis : QoI
  enrolled_in_30 : QoI
  suppresed_VL : QoI
  deriving DecidableEq

/-- Node construction from a parsed row: row[0] is the time step, row[1] the
population, and slices [6:17], [17:28], [28:39], [39:50], [50:61], [61:72]
feed the six quantities of interest. -/
def Node.init (row_month_data : List Int) : Option Node := do
  let t ← row_month_data[0]?
  let p ← row_month_data[1]?
  let infected ← QoI.init ((row_month_data.drop 6).take 11)
  let detected ← QoI.init ((row_month_data.drop 17).take 11)
  let in_care ← QoI.init ((row_month_data.drop 28).take 11)
  let new_diagnosis ← QoI.init ((row_month_data.drop 39).take 11)
  let enrolled_in_30 ← QoI.init ((row_month_data.drop 50).take 11)
  let suppresed_VL ← QoI.init ((row_month_data.drop 61).take 11)
  some ⟨t, p, infected, detected, in_care, new_diagnosis, enrolled_in_30, suppresed_VL⟩

/-- Year count of a given time step: Python int(time / 12) with float division. -/
def Node.get_year_of_month (_ : Node) (time : Int) : Int := truncToInt ((time : ℚ) / 12)

/-- Time of this node expressed in whole years: int(time / 12). -/
def Node.get_time_in_year (n : Node) : Int := truncToInt ((n.time : ℚ) / 12)

/-- December check: whether int(time / 12) equals time / 12.0 exactly. -/
def Node.isItDecember (n : Node) : Bool :=
  decide ((n.get_time_in_year : ℚ) = (n.time : ℚ) / 12)

/-- Calendar year of this node relative to an anchor (year, month) pair. -/
def Node.get_year (n : Node) (year month : Int) : Int :=
  year - (n.get_year_of_month month - n.get_time_in_year)

/-- Yearly aggregated row (class NodeYearly). -/
structure NodeYearly where
  year : Int
  infected : Int
  detected : Int
  in_care : Int
  new_diagnosis : Int
  enrolled_in_30 : Int
  suppresed_VL : Int
  deriving DecidableEq

/-- Percentage in care: in_care / detected, a ZeroDivisionError (none) when
detected is zero. -/
def NodeYearly.get_precent_incare (n : NodeYearly) : Option ℚ :=
  if n.detected = 0 then none else some ((n.in_care : ℚ) / (n.detected : ℚ))

/-- Percentage with suppressed viral load: suppresed_VL / detected, a
ZeroDivisionError (none) when detected is zero. -/
def NodeYearly.get_precent_suppressed (n : NodeYearly) : Option ℚ :=
  if n.detected = 0 then none else some ((n.suppresed_VL : ℚ) / (n.detected : ℚ))

/-- Percentage in care within 30 days: enrolled_in_30 / (new_diagnosis + 0.0001),
a ZeroDivisionError (none) only when the shifted denominator is zero. -/
def NodeYearly.get_precent_care_within30 (n : NodeYearly) : Option ℚ :=
  if (n.new_diagnosis : ℚ) + 0.0001 = 0 then none
  else some ((n.enrolled_in_30 : ℚ) / ((n.new_diagnosis : ℚ) + 0.0001))

/-- Python str.isdigit: nonempty and all characters are digits. -/
def isdigit (s : String) : Bool := !s.data.isEmpty && s.data.all (fun c => c.isDigit)

/-- Decimal value of a digit string, the behaviour of Python int() on it. -/
def strToNat (s : String) : Nat := s.data.foldl (fun n c => n * 10 + (c.toNat - 48)) 0

/-- Splitter worker for Python str.split() with no argument: cur holds the
reversed characters of the token being built. -/
def pySplitGo : List Char → List Char → List String
  | cur, [] => if cur.isEmpty then [] else [⟨cur.reverse⟩]
  | cur, c :: cs =>
    if c.isWhitespace then
      (if cur.isEmpty then [] else [⟨cur.reverse⟩]) ++ pySplitGo [] cs
    else
      pySplitGo (c :: cur) cs

/-- Python str.split() with no argument: the maximal whitespace-free runs, in
order, with no empty tokens. -/
def pySplit (s : String) : List String := pySplitGo [] s.data

/-- parse_data_line: split on whitespace, keep the tokens that are made of digits
only, and convert each to an integer, preserving order. -/
def parse_data_line (line_str : String) : List Int :=
  ((pySplit line_str).filter (fun i => isdigit i)).map (fun i => (strToNat i : Int))

/-- compare: accept the simulated value iff it lies strictly inside the
baseline plus/minus ten percent band. -/
def compare (simulated baseline : ℚ) : Bool :=
  if baseline + 0.1 * baseline > simulated ∧ simulated > baseline - 0.1 * baseline then
    true
  else
    false

/-- Default node used only to give list indexing with getD a value; every use
below is guarded by an in-range hypothesis. -/
def dnode : Node :=
  ⟨0, 0, ⟨⟨0, 0⟩, ⟨0, 0, 0⟩, ⟨0, 0, 0, 0, 0, 0⟩⟩, ⟨⟨0, 0⟩, ⟨0, 0, 0⟩, ⟨0, 0, 0, 0, 0, 0⟩⟩,
   ⟨⟨0, 0⟩, ⟨0, 0, 0⟩, ⟨0, 0, 0, 0, 0, 0⟩⟩, ⟨⟨0, 0⟩, ⟨0, 0, 0⟩, ⟨0, 0, 0, 0, 0, 0⟩⟩,
   ⟨⟨0, 0⟩, ⟨0, 0, 0⟩, ⟨0, 0, 0, 0, 0, 0⟩⟩, ⟨⟨0, 0⟩, ⟨0, 0, 0⟩, ⟨0, 0, 0, 0, 0, 0⟩⟩⟩

/-- State of the yearly aggregation loop in the main program: the yearly table
built so far and the two running flow accumulators. -/
structure AggState where
  table : List NodeYearly
  newdiag : Int
  newenroll : Int
  deriving DecidableEq

/-- One iteration of the main aggregation loop at index i.  Accumulates the two
flow quantities; on a December node it also accumulates the two following
months, appends the yearly summary snapshotted at index i + 2, and resets both
accumulators.  Out-of-range indexing or an unknown demographic yields none. -/
def aggStep (arg_year arg_month : Int) (arg_demographics : String)
    (nodal_data : List Node) (i : Nat) (s : AggState) : Option AggState := do
  let node ← nodal_data[i]?
  let d0 ← node.new_diagnosis.get_demographic arg_demographics
  let e0 ← node.enrolled_in_30.get_demographic arg_demographics
  let newdiag := s.newdiag + d0
  let newenroll := s.newenroll + e0
  if node.isItDecember then
    let n1 ← nodal_data[i + 1]?
    let d1 ← n1.new_diagnosis.get_demographic arg_demographics
    let e1 ← n1.enrolled_in_30.get_demographic arg_demographics
    let n2 ← nodal_data[i + 2]?
    let d2 ← n2.new_diagnosis.get_demographic arg_demographics
    let e2 ← n2.enrolled_in_30.get_demographic arg_demographics
    let inf ← n2.infected.get_demographic arg_demographics
    let det ← n2.detected.get_demographic arg_demographics
    let inc ← n2.in_care.get_demographic arg_demographics
    let sup ← n2.suppresed_VL.get_demographic arg_demographics
    some ⟨s.table ++ [⟨n2.get_year arg_year arg_month, inf, det, inc,
                      newdiag + d1 + d2, newenroll + e1 + e2, sup⟩], 0, 0⟩
  else
    some ⟨s.table, newdiag, newenroll⟩

/-- The main aggregation loop: k remaining iterations starting at index i. -/
def aggLoopAux (arg_year arg_month : Int) (arg_demographics : String)
    (nodal_data : List Node) : Nat → Nat → AggState → Option AggState
  | 0, _, s => some s
  | k + 1, i, s => do
      let s1 ← aggStep arg_year arg_month arg_demographics nodal_data i s
      aggLoopAux arg_year arg_month arg_demographics nodal_data k (i + 1) s1

/-- The whole yearly aggregation of the main program: iterate the loop body for
i in range(0, len(nodal_data) - 4) starting from an empty table and zeroed
accumulators, and return the yearly table. -/
def aggregate (arg_year arg_month : Int) (arg_demographics : String)
    (nodal_data : List Node) : Option (List NodeYearly) :=
  (aggLoopAux arg_year arg_month arg_demographics nodal_data
    (nodal_data.length - 4) 0 ⟨[], 0, 0⟩).map AggState.table

/-- The five demographic names accepted by get_demographic. -/
def validDemo (demographic : String) : Prop :=
  demographic = "WHITE" ∨ demographic = "BLACK" ∨ demographic = "HISPANIC" ∨
    demographic = "OTHER" ∨ demographic = "TOTAL"

/-- The count a valid demographic filter selects from a QoI. -/
def demoVal (demographic : String) (q : QoI) : Int :=
  (q.get_demographic demographic).getD 0

/-- Monthly new-diagnosis count of the selected demographic at index j. -/
def dCount (demographic : String) (nodal_data : List Node) (j : Nat) : Int :=
  demoVal demographic (nodal_data.getD j dnode).new_diagnosis

/-- Monthly enrolled-within-30-days count of the selected demographic at index j. -/
def eCount (demographic : String) (nodal_data : List Node) (j : Nat) : Int :=
  demoVal demographic (nodal_data.getD j dnode).enrolled_in_30

/-! ### Foundational lemmas -/

theorem truncToInt_intCast (m : Int) : truncToInt ((m : ℚ)) = m := by
  unfold truncToInt
  split
  · exact Int.floor_intCast m
  · exact Int.ceil_intCast m

theorem isItDecember_iff (n : Node) : n.isItDecember = true ↔ (12 : Int) ∣ n.time := by
  unfold Node.isItDecember Node.get_time_in_year
  rw [decide_eq_true_iff]
  constructor
  · intro h
    refine ⟨truncToInt ((n.time : ℚ) / 12), ?_⟩
    have h2 : (n.time : ℚ) = 12 * (truncToInt ((n.time : ℚ) / 12) : ℚ) := by
      rw [h]
      ring
    exact_mod_cast h2
  · rintro ⟨m, hm⟩
    have h2 : ((n.time : ℚ)) / 12 = (m : ℚ) := by
      rw [hm]
      push_cast
      ring
    rw [h2, truncToInt_intCast]

theorem isItDecember_eq (n : Node) : n.isItDecember = decide ((12 : Int) ∣ n.time) := by
  by_cases h : (12 : Int) ∣ n.time
  · rw [(isItDecember_iff n).mpr h, decide_eq_true h]
  · have hb : n.isItDecember = false :=
      Bool.eq_false_iff.mpr fun hc => h ((isItDecember_iff n).mp hc)
    rw [hb, decide_eq_false h]

/-! ### Concrete data used by witnesses -/

/-- A QoI whose male count is v and whose other cells are zero, so its TOTAL
filtered count is v. -/
def qConst (v : Int) : QoI := ⟨⟨v, 0⟩, ⟨0, 0, 0⟩, ⟨0, 0, 0, 0, 0, 0⟩⟩

/-- A concrete monthly node at time step t with new-diagnosis TOTAL count t and
enrolled-within-30-days TOTAL count 2 * t. -/
def mkN (t : Int) : Node :=
  ⟨t, 100, qConst 0, qConst 0, qConst 0, qConst t, qConst (2 * t), qConst 0⟩

/-! ### Claims -/

/-- Claim C3: compare(s, b) is true iff 0.9 * b < s < 1.1 * b, with strict
inequality on both sides; compare(1.1 * b, b) is false, and for b > 0
compare(1.09999 * b, b) is true. -/
theorem C3_compare_strict_band (s b : ℚ) :
    (compare s b = true ↔ (9 / 10) * b < s ∧ s < (11 / 10) * b) ∧
    compare ((11 / 10) * b) b = false ∧
    (0 < b → compare ((109999 / 100000) * b) b = true) := by
  have h01 : (0.1 : ℚ) = 1 / 10 := by norm_num
  have hiff : ∀ x y : ℚ, compare x y = true ↔ (9 / 10) * y < x ∧ x < (11 / 10) * y := by
    intro x y
    unfold compare
    rw [h01]
    split
    · rename_i hc
      exact iff_of_true rfl ⟨by linarith [hc.2], by linarith [hc.1]⟩
    · rename_i hc
      refine iff_of_false (by simp) fun hband => hc ⟨by linarith [hband.2], by linarith [hband.1]⟩
  refine ⟨hiff s b, ?_, fun hb => (hiff _ _).mpr ⟨by linarith, by linarith⟩⟩
  rcases hcmp : compare ((11 / 10) * b) b with _ | _
  · rfl
  · have hband := (hiff ((11 / 10) * b) b).mp hcmp
    exact absurd hband.2 (lt_irrefl _)

/-- Claim C3 witness: the band membership evaluated at s = 1.09999, b = 1. -/
theorem C3_compare_strict_band_witness : compare ((109999 / 100000 : ℚ) * 1) 1 = true :=
  (C3_compare_strict_band 0 1).2.2 (by norm_num)

/-- Claim C4: on a record built from a valid 11-element vector, the TOTAL filter
agrees with the total (male + female), HISPANIC sums the three hispanic cells,
and WHITE, BLACK, OTHER return the corresponding non-hispanic cell only. -/
theorem C4_demographic_filters (m f o1 o2 o3 bnh bh wnh wh onh oh : Int) :
    ∃ q : QoI, QoI.init [m, f, o1, o2, o3, bnh, bh, wnh, wh, onh, oh] = some q ∧
      q.get_demographic "TOTAL" = some q.get_total_number ∧
      q.get_total_number = m + f ∧
      q.get_demographic "HISPANIC" = some (bh + wh + oh) ∧
      q.get_demographic "WHITE" = some wnh ∧
      q.get_demographic "BLACK" = some bnh ∧
      q.get_demographic "OTHER" = some onh := by
  refine ⟨⟨⟨m, f⟩, ⟨o1, o2, o3⟩, ⟨bnh, bh, wnh, wh, onh, oh⟩⟩, ?_, ?_, ?_, ?_, ?_, ?_, ?_⟩ <;> rfl

/-- Claim C5 counterexample: a vector of length 12 is not rejected, the three
slice-length assertions all pass and construction succeeds. -/
theorem C5_length12_accepted :
    (List.replicate 12 (0 : Int)).length ≠ 11 ∧
    (QoI.init (List.replicate 12 (0 : Int))).isSome = true := by
  exact ⟨by decide, rfl⟩

/-- Claim C5 (amended): construction of a demographic record succeeds iff the
input vector has at least 11 entries; any shorter vector fails the slice-length
assertions, and entries beyond the 11th are ignored. -/
theorem C5_init_succeeds_iff_length (QoI_data : List Int) :
    (QoI.init QoI_data).isSome = true ↔ 11 ≤ QoI_data.length := by
  constructor
  · intro h
    by_contra hlen
    push_neg at hlen
    by_cases g1 : 2 ≤ QoI_data.length <;>
      by_cases g2 : 3 ≤ QoI_data.length - 2 <;>
        by_cases g3 : 6 ≤ QoI_data.length - 5 <;>
          first
            | omega
            | simp [QoI.init, Genders.init, Orientations.init, Ethnicities.init,
                List.length_take, g1, g2, g3] at h
  · intro h
    have c2 : (QoI_data.take 2).length = 2 := by
      simp only [List.length_take]
      omega
    have c3 : ((QoI_data.drop 2).take 3).length = 3 := by
      simp only [List.length_take, List.length_drop]
      omega
    have c6 : ((QoI_data.drop 5).take 6).length = 6 := by
      simp only [List.length_take, List.length_drop]
      omega
    simp [QoI.init, Genders.init, Orientations.init, Ethnicities.init, c2, c3, c6]

/-- Claim C6: an unrecognized demographic name is not fatal, get_demographic
just returns no value. -/
theorem C6_unknown_demographic_not_fatal (q : QoI) (demographic : String)
    (h : ¬ validDemo demographic) :
    q.get_demographic demographic = none := by
  unfold validDemo at h
  push_neg at h
  obtain ⟨h1, h2, h3, h4, h5⟩ := h
  simp [QoI.get_demographic, h1, h2, h3, h4, h5]

/-- Claim C6 witness: the unknown name MALE yields no value on a concrete record. -/
theorem C6_unknown_demographic_not_fatal_witness :
    (qConst 7).get_demographic "MALE" = none :=
  C6_unknown_demographic_not_fatal (qConst 7) "MALE" (by unfold validDemo; decide)

/-- Claim C7: the within-30-days fraction divides by new_diagnosis + 0.0001,
never raises a division error, and when new_diagnosis is 0 it returns the
finite value 10000 * enrolled_in_30. -/
theorem C7_within30_never_divzero (n : NodeYearly) :
    n.get_precent_care_within30 =
      some ((n.enrolled_in_30 : ℚ) / ((n.new_diagnosis : ℚ) + 0.0001)) ∧
    (n.new_diagnosis = 0 →
      n.get_precent_care_within30 = some ((10000 : ℚ) * (n.enrolled_in_30 : ℚ))) := by
  have hden : (n.new_diagnosis : ℚ) + 0.0001 ≠ 0 := by
    intro hc
    have h2 : ((10000 * n.new_diagnosis : Int) : ℚ) = -1 := by
      push_cast
      nlinarith [hc]
    have h3 : (10000 * n.new_diagnosis : Int) = -1 := by exact_mod_cast h2
    omega
  constructor
  · rw [NodeYearly.get_precent_care_within30, if_neg hden]
  · intro h0
    rw [NodeYearly.get_precent_care_within30, if_neg hden, h0]
    norm_num
    rw [div_eq_iff (by norm_num : (1 / 10000 : ℚ) ≠ 0)]
    ring

/-- Claim C7 witness: a yearly row with zero new diagnoses and 5 enrollments
returns the finite value 50000, raising no error. -/
theorem C7_within30_never_divzero_witness :
    (⟨2014, 1, 2, 3, 0, 5, 6⟩ : NodeYearly).get_precent_care_within30 =
      some ((10000 : ℚ) * (((5 : Int)) : ℚ)) :=
  (C7_within30_never_divzero ⟨2014, 1, 2, 3, 0, 5, 6⟩).2 rfl

/-- Claim C9: for a node with non-negative time index, isItDecember holds iff
the time index is an exact multiple of 12. -/
theorem C9_yearend_iff_multiple_of_twelve (n : Node) (_h : 0 ≤ n.time) :
    n.isItDecember = true ↔ (12 : Int) ∣ n.time :=
  isItDecember_iff n

/-- Claim C9 witness: evaluated at the concrete node with time step 24. -/
theorem C9_yearend_iff_multiple_of_twelve_witness :
    (mkN 24).isItDecember = true ↔ (12 : Int) ∣ (mkN 24).time :=
  C9_yearend_iff_multiple_of_twelve (mkN 24) (by decide)

/-- Claim C10: when detected is 0 the in-care and suppressed fractions raise a
division-by-zero error (none); they are defined exactly when detected is
non-zero, being the plain quotients by detected with no epsilon guard. -/
theorem C10_incare_suppressed_divzero (n : NodeYearly) :
    (n.detected = 0 →
      n.get_precent_incare = none ∧ n.get_precent_suppressed = none) ∧
    (n.detected ≠ 0 →
      n.get_precent_incare = some ((n.in_care : ℚ) / (n.detected : ℚ)) ∧
      n.get_precent_suppressed = some ((n.suppresed_VL : ℚ) / (n.detected : ℚ))) := by
  constructor
  · intro h
    rw [NodeYearly.get_precent_incare, NodeYearly.get_precent_suppressed, if_pos h, if_pos h]
    exact ⟨rfl, rfl⟩
  · intro h
    rw [NodeYearly.get_precent_incare, NodeYearly.get_precent_suppressed, if_neg h, if_neg h]
    exact ⟨rfl, rfl⟩

/-- Claim C10 witness: a yearly row with detected = 0 raises on both queries. -/
theorem C10_incare_suppressed_divzero_witness :
    (⟨2014, 1, 0, 3, 4, 5, 6⟩ : NodeYearly).get_precent_incare = none ∧
    (⟨2014, 1, 0, 3, 4, 5, 6⟩ : NodeYearly).get_precent_suppressed = none :=
  (C10_incare_suppressed_divzero ⟨2014, 1, 0, 3, 4, 5, 6⟩).1 rfl

theorem filter_map_eq_filterMap {α β : Type} (p : α → Bool) (g : α → β) (l : List α) :
    (l.filter p).map g = l.filterMap fun a => if p a then some (g a) else none := by
  induction l with
  | nil => rfl
  | cons a l ih =>
    by_cases h : p a <;>
      simp [List.filter_cons, List.filterMap_cons, h, ih]

/-- Claim C8: parse_data_line keeps exactly the whitespace-separated tokens made
solely of digit characters, in order; a kept token is nonempty and all digits, a
token starting with a minus sign is dropped, every returned integer is
non-negative, and on a sample line the negative and alphabetic tokens vanish. -/
theorem C8_parse_data_line_digit_tokens :
    (∀ line_str : String, parse_data_line line_str =
      (pySplit line_str).filterMap
        fun i => if isdigit i then some ((strToNat i : Int)) else none) ∧
    (∀ i : String, isdigit i = true ↔ i.data ≠ [] ∧ ∀ c ∈ i.data, c.isDigit = true) ∧
    (∀ i : String, i.data.head? = some '-' → isdigit i = false) ∧
    (∀ line_str : String, ∀ x ∈ parse_data_line line_str, 0 ≤ x) ∧
    parse_data_line "12 -3 abc 7" = [12, 7] := by
  refine ⟨?_, ?_, ?_, ?_, by rfl⟩
  · intro line_str
    exact filter_map_eq_filterMap _ _ _
  · intro i
    simp [isdigit, List.isEmpty_iff, List.all_eq_true]
  · intro i h
    cases hd : i.data with
    | nil => rw [hd] at h; cases h
    | cons c cs =>
      rw [hd] at h
      have hc : c = '-' := by
        simpa using h
      have hdig : c.isDigit = false := by rw [hc]; rfl
      simp [isdigit, hd, hdig]
  · intro line_str x hx
    simp only [parse_data_line, List.mem_map] at hx
    obtain ⟨t, _, rfl⟩ := hx
    exact Int.natCast_nonneg _

/-- The five-row observation sequence on which claim C2 fails: a December at
index 2 = length - 3, followed by exactly the two observations lag correction
needs. -/
def wl5 : List Node := [mkN 10, mkN 11, mkN 12, mkN 13, mkN 14]

theorem aggLoopAux_succ (arg_year arg_month : Int) (arg_demographics : String)
    (nodal_data : List Node) (k i : Nat) (s : AggState) :
    aggLoopAux arg_year arg_month arg_demographics nodal_data (k + 1) i s =
      (aggStep arg_year arg_month arg_demographics nodal_data i s).bind
        (fun s1 => aggLoopAux arg_year arg_month arg_demographics nodal_data k (i + 1) s1) :=
  rfl

/-- Claim C2, the code evaluated at the failing input: wl5 has a year-end at
index 2 followed by two further observations, yet the aggregation loop, whose
bound is length - 4, emits no yearly summary at all for it. -/
theorem C2_yearend_with_two_followers_dropped :
    (wl5.getD 2 dnode).isItDecember = true ∧
    wl5.length = 5 ∧
    aggregate 2014 600 "TOTAL" wl5 = some [] := by
  refine ⟨by rw [isItDecember_eq]; decide, rfl, ?_⟩
  have h10 : (mkN 10).isItDecember = false := by rw [isItDecember_eq]; decide
  have hg : ∀ v : Int, (qConst v).get_demographic "TOTAL" = some v := by
    intro v
    simp [qConst, QoI.get_demographic, Genders.sum]
  have hp1 : ∀ t : Int, (mkN t).new_diagnosis = qConst t := fun _ => rfl
  have hp2 : ∀ t : Int, (mkN t).enrolled_in_30 = qConst (2 * t) := fun _ => rfl
  have hlen : wl5.length - 4 = 0 + 1 := rfl
  rw [aggregate, hlen, aggLoopAux_succ]
  simp [aggStep, wl5, h10, hg, hp1, hp2, aggLoopAux]

/-! ### Characterization of the aggregation loop (for claim C1) -/

theorem nodes_getElem? (l : List Node) (i : Nat) (h : i < l.length) :
    l[i]? = some (l.getD i dnode) := by
  rw [List.getElem?_eq_getElem h, List.getD_eq_getElem l dnode h]

theorem get_demographic_valid {demographic : String} (hd : validDemo demographic) (q : QoI) :
    q.get_demographic demographic = some (demoVal demographic q) := by
  rcases hd with h | h | h | h | h <;> subst h <;> rfl

/-- The yearly summary row appended by a December iteration at index i from
state s: point-in-time figures snapshot at index i + 2, flow accumulators
extended by the counts at i, i + 1 and i + 2. -/
def decYearly (arg_year arg_month : Int) (arg_demographics : String)
    (nodal_data : List Node) (i : Nat) (s : AggState) : NodeYearly :=
  ⟨(nodal_data.getD (i + 2) dnode).get_year arg_year arg_month,
   demoVal arg_demographics (nodal_data.getD (i + 2) dnode).infected,
   demoVal arg_demographics (nodal_data.getD (i + 2) dnode).detected,
   demoVal arg_demographics (nodal_data.getD (i + 2) dnode).in_care,
   s.newdiag + dCount arg_demographics nodal_data i +
     dCount arg_demographics nodal_data (i + 1) + dCount arg_demographics nodal_data (i + 2),
   s.newenroll + eCount arg_demographics nodal_data i +
     eCount arg_demographics nodal_data (i + 1) + eCount arg_demographics nodal_data (i + 2),
   demoVal arg_demographics (nodal_data.getD (i + 2) dnode).suppresed_VL⟩

theorem bind_some_eq {a b : Type} (x : a) (f : a → Option b) :
    (some x : Option a) >>= f = f x := rfl

theorem aggStep_not_dec (arg_year arg_month : Int) {arg_demographics : String}
    (nodal_data : List Node) (i : Nat) (s : AggState)
    (hd : validDemo arg_demographics) (hi : i < nodal_data.length)
    (hdec : (nodal_data.getD i dnode).isItDecember = false) :
    aggStep arg_year arg_month arg_demographics nodal_data i s =
      some ⟨s.table, s.newdiag + dCount arg_demographics nodal_data i,
            s.newenroll + eCount arg_demographics nodal_data i⟩ := by
  unfold aggStep
  rw [nodes_getElem? nodal_data i hi]
  simp only [bind_some_eq, get_demographic_valid hd, hdec, Bool.false_eq_true, if_false,
    dCount, eCount]

theorem aggStep_dec (arg_year arg_month : Int) {arg_demographics : String}
    (nodal_data : List Node) (i : Nat) (s : AggState)
    (hd : validDemo arg_demographics) (hi : i + 2 < nodal_data.length)
    (hdec : (nodal_data.getD i dnode).isItDecember = true) :
    aggStep arg_year arg_month arg_demographics nodal_data i s =
      some ⟨s.table ++ [decYearly arg_year arg_month arg_demographics nodal_data i s], 0, 0⟩ := by
  have h0 : i < nodal_data.length := by omega
  have h1 : i + 1 < nodal_data.length := by omega
  unfold aggStep
  rw [nodes_getElem? nodal_data i h0]
  simp only [bind_some_eq, nodes_getElem? nodal_data (i + 1) h1,
    nodes_getElem? nodal_data (i + 2) hi, get_demographic_valid hd, hdec, if_true,
    decYearly, dCount, eCount]

theorem loop_append (arg_year arg_month : Int) (arg_demographics : String)
    (nodal_data : List Node) :
    ∀ (m n a : Nat) (s : AggState),
      aggLoopAux arg_year arg_month arg_demographics nodal_data (m + n) a s =
        (aggLoopAux arg_year arg_month arg_demographics nodal_data m a s).bind
          fun s1 => aggLoopAux arg_year arg_month arg_demographics nodal_data n (a + m) s1 := by
  intro m
  induction m with
  | zero =>
    intro n a s
    simp [aggLoopAux]
  | succ m ih =>
    intro n a s
    rw [show m + 1 + n = (m + n) + 1 from by omega, aggLoopAux_succ, aggLoopAux_succ]
    cases aggStep arg_year arg_month arg_demographics nodal_data a s with
    | none => simp
    | some s1 =>
      rw [Option.some_bind, Option.some_bind, ih n (a + 1) s1,
        show a + 1 + m = a + (m + 1) from by omega]

theorem sum_range_shift (f : Nat → Int) (a k : Nat) :
    Finset.sum (Finset.range (k + 1)) (fun j => f (a + j)) =
      f a + Finset.sum (Finset.range k) (fun j => f (a + 1 + j)) := by
  rw [Finset.sum_range_succ']
  have h0 : a + 0 = a := by omega
  have hsum : (Finset.sum (Finset.range k) fun i => f (a + (i + 1))) =
      Finset.sum (Finset.range k) (fun j => f (a + 1 + j)) :=
    Finset.sum_congr rfl (fun j _ => by rw [show a + (j + 1) = a + 1 + j from by omega])
  rw [h0, hsum]
  exact add_comm _ _

theorem loop_no_dec (arg_year arg_month : Int) {arg_demographics : String}
    (nodal_data : List Node) (hd : validDemo arg_demographics) :
    ∀ (k a : Nat) (s : AggState), a + k ≤ nodal_data.length →
      (∀ j, a ≤ j → j < a + k → (nodal_data.getD j dnode).isItDecember = false) →
      aggLoopAux arg_year arg_month arg_demographics nodal_data k a s =
        some ⟨s.table,
          s.newdiag + Finset.sum (Finset.range k)
            (fun j => dCount arg_demographics nodal_data (a + j)),
          s.newenroll + Finset.sum (Finset.range k)
            (fun j => eCount arg_demographics nodal_data (a + j))⟩ := by
  intro k
  induction k with
  | zero =>
    intro a s _ _
    simp only [Finset.sum_range_zero, add_zero]
    cases s
    rfl
  | succ k ih =>
    intro a s hlen hnd
    rw [aggLoopAux_succ,
      aggStep_not_dec arg_year arg_month nodal_data a s hd (by omega)
        (hnd a le_rfl (by omega)),
      Option.some_bind,
      ih (a + 1) _ (by omega) (fun j hj1 hj2 => hnd j (by omega) (by omega))]
    simp only [Option.some.injEq, AggState.mk.injEq]
    refine ⟨trivial, ?_, ?_⟩ <;>
      rw [sum_range_shift] <;> ring

theorem loop_some (arg_year arg_month : Int) {arg_demographics : String}
    (nodal_data : List Node) (hd : validDemo arg_demographics) :
    ∀ (k a : Nat) (s : AggState), a + k + 2 ≤ nodal_data.length →
      ∃ s2, aggLoopAux arg_year arg_month arg_demographics nodal_data k a s = some s2 := by
  intro k
  induction k with
  | zero =>
    intro a s _
    exact ⟨s, rfl⟩
  | succ k ih =>
    intro a s hlen
    rcases hdec : (nodal_data.getD a dnode).isItDecember with _ | _
    · rw [aggLoopAux_succ,
        aggStep_not_dec arg_year arg_month nodal_data a s hd (by omega) hdec,
        Option.some_bind]
      exact ih (a + 1) _ (by omega)
    · rw [aggLoopAux_succ,
        aggStep_dec arg_year arg_month nodal_data a s hd (by omega) hdec,
        Option.some_bind]
      exact ih (a + 1) _ (by omega)

theorem loop_table (arg_year arg_month : Int) {arg_demographics : String}
    (nodal_data : List Node) (hd : validDemo arg_demographics) :
    ∀ (k a : Nat) (s s2 : AggState), a + k + 2 ≤ nodal_data.length →
      aggLoopAux arg_year arg_month arg_demographics nodal_data k a s = some s2 →
      ∃ t, s2.table = s.table ++ t := by
  intro k
  induction k with
  | zero =>
    intro a s s2 _ h
    cases h
    exact ⟨[], (List.append_nil _).symm⟩
  | succ k ih =>
    intro a s s2 hlen h
    rcases hdec : (nodal_data.getD a dnode).isItDecember with _ | _
    · rw [aggLoopAux_succ,
        aggStep_not_dec arg_year arg_month nodal_data a s hd (by omega) hdec,
        Option.some_bind] at h
      obtain ⟨t, ht⟩ := ih (a + 1) _ s2 (by omega) h
      exact ⟨t, ht⟩
    · rw [aggLoopAux_succ,
        aggStep_dec arg_year arg_month nodal_data a s hd (by omega) hdec,
        Option.some_bind] at h
      obtain ⟨t, ht⟩ := ih (a + 1) _ s2 (by omega) h
      refine ⟨[decYearly arg_year arg_month arg_demographics nodal_data a s] ++ t, ?_⟩
      rw [ht]
      simp

theorem loop_last_dec (arg_year arg_month : Int) {arg_demographics : String}
    (nodal_data : List Node) (hd : validDemo arg_demographics)
    (k a : Nat) (s : AggState) (hk : 1 ≤ k) (hlen : a + k + 2 ≤ nodal_data.length)
    (hdec : (nodal_data.getD (a + k - 1) dnode).isItDecember = true) :
    ∃ s2, aggLoopAux arg_year arg_month arg_demographics nodal_data k a s = some s2 ∧
      s2.newdiag = 0 ∧ s2.newenroll = 0 := by
  obtain ⟨k1, rfl⟩ : ∃ k1, k = k1 + 1 := ⟨k - 1, by omega⟩
  obtain ⟨s1, hs1⟩ := loop_some arg_year arg_month nodal_data hd k1 a s (by omega)
  have hmid : a + k1 = a + (k1 + 1) - 1 := by omega
  rw [loop_append arg_year arg_month arg_demographics nodal_data k1 1 a s, hs1,
    Option.some_bind, show (1 : Nat) = 0 + 1 from rfl, aggLoopAux_succ,
    aggStep_dec arg_year arg_month nodal_data (a + k1) s1 hd (by omega) (by rw [hmid]; exact hdec),
    Option.some_bind]
  exact ⟨⟨s1.table ++ [decYearly arg_year arg_month arg_demographics nodal_data (a + k1) s1], 0, 0⟩,
    rfl, rfl, rfl⟩

theorem aggLoopAux_one (arg_year arg_month : Int) (arg_demographics : String)
    (nodal_data : List Node) (i : Nat) (s : AggState) :
    aggLoopAux arg_year arg_month arg_demographics nodal_data 1 i s =
      aggStep arg_year arg_month arg_demographics nodal_data i s := by
  rw [show (1 : Nat) = 0 + 1 from rfl, aggLoopAux_succ]
  cases aggStep arg_year arg_month arg_demographics nodal_data i s <;> rfl

theorem sum_range14_split (f : Nat → Int) (a : Nat) :
    Finset.sum (Finset.range 14) (fun j => f (a + j)) =
      Finset.sum (Finset.range 11) (fun j => f (a + j)) +
        f (a + 11) + f (a + 11 + 1) + f (a + 11 + 2) := by
  simp [Finset.sum_range_succ]

/-- Claim C1: in the lag-corrected aggregation, whenever a December boundary at
index i has its full calendar year (the 11 preceding contiguous months) in the
sequence and the loop reaches it, the yearly summary appended for it carries
cumulative new-diagnosis and enrolled-within-30-days fields equal to the sum of
the selected demographic's monthly counts over those 12 months plus the two
months following the boundary, and both running accumulators are zero again
right after the summary is appended; the summary belongs to the final output. -/
theorem C1_lag_corrected_cumulative_sums
    (arg_year arg_month : Int) (arg_demographics : String) (nodal_data : List Node)
    (t0 : Int) (i : Nat)
    (hdemo : validDemo arg_demographics)
    (htimes : ∀ k, k < nodal_data.length → (nodal_data.getD k dnode).time = t0 + (k : Int))
    (hdec12 : (12 : Int) ∣ t0 + (i : Int))
    (h11 : 11 ≤ i)
    (hlen : i + 4 < nodal_data.length) :
    ∃ s, aggLoopAux arg_year arg_month arg_demographics nodal_data (i + 1) 0 ⟨[], 0, 0⟩ =
        some s ∧
      s.newdiag = 0 ∧ s.newenroll = 0 ∧
      ∃ y, s.table.getLast? = some y ∧
        y.new_diagnosis = Finset.sum (Finset.range 14)
          (fun j => dCount arg_demographics nodal_data (i - 11 + j)) ∧
        y.enrolled_in_30 = Finset.sum (Finset.range 14)
          (fun j => eCount arg_demographics nodal_data (i - 11 + j)) ∧
        ∀ out, aggregate arg_year arg_month arg_demographics nodal_data = some out →
          y ∈ out := by
  obtain ⟨a, rfl⟩ : ∃ a, i = a + 11 := ⟨i - 11, by omega⟩
  have hdecAt : ∀ j, j < nodal_data.length →
      ((nodal_data.getD j dnode).isItDecember = true ↔ (12 : Int) ∣ t0 + (j : Int)) := by
    intro j hj
    rw [isItDecember_iff, htimes j hj]
  obtain ⟨s0, hs0, hz1, hz2⟩ :
      ∃ s0, aggLoopAux arg_year arg_month arg_demographics nodal_data a 0 ⟨[], 0, 0⟩ =
          some s0 ∧ s0.newdiag = 0 ∧ s0.newenroll = 0 := by
    rcases Nat.eq_zero_or_pos a with h0 | hpos
    · subst h0
      exact ⟨⟨[], 0, 0⟩, rfl, rfl, rfl⟩
    · have hd12 : (nodal_data.getD (0 + a - 1) dnode).isItDecember = true := by
        rw [hdecAt (0 + a - 1) (by omega)]
        omega
      obtain ⟨s0, hs0, hz⟩ := loop_last_dec arg_year arg_month nodal_data hdemo a 0 ⟨[], 0, 0⟩
        (by omega) (by omega) hd12
      exact ⟨s0, hs0, hz.1, hz.2⟩
  have hnd : ∀ j, a ≤ j → j < a + 11 → (nodal_data.getD j dnode).isItDecember = false := by
    intro j hj1 hj2
    refine Bool.eq_false_iff.mpr fun hb => ?_
    have hj12 := (hdecAt j (by omega)).mp hb
    omega
  have h1 := loop_no_dec arg_year arg_month nodal_data hdemo 11 a s0 (by omega) hnd
  rw [hz1, hz2, zero_add, zero_add] at h1
  have hdecI : (nodal_data.getD (a + 11) dnode).isItDecember = true :=
    (hdecAt (a + 11) (by omega)).mpr hdec12
  have h2 := aggStep_dec arg_year arg_month nodal_data (a + 11)
    ⟨s0.table,
     Finset.sum (Finset.range 11) (fun j => dCount arg_demographics nodal_data (a + j)),
     Finset.sum (Finset.range 11) (fun j => eCount arg_demographics nodal_data (a + j))⟩
    hdemo (by omega) hdecI
  have hfull : aggLoopAux arg_year arg_month arg_demographics nodal_data (a + 11 + 1) 0
      ⟨[], 0, 0⟩ =
      some ⟨s0.table ++ [decYearly arg_year arg_month arg_demographics nodal_data (a + 11)
        ⟨s0.table,
         Finset.sum (Finset.range 11) (fun j => dCount arg_demographics nodal_data (a + j)),
         Finset.sum (Finset.range 11) (fun j => eCount arg_demographics nodal_data (a + j))⟩],
        0, 0⟩ := by
    rw [loop_append arg_year arg_month arg_demographics nodal_data a 12 0 ⟨[], 0, 0⟩, hs0,
      Option.some_bind, Nat.zero_add,
      loop_append arg_year arg_month arg_demographics nodal_data 11 1 a s0, h1,
      Option.some_bind, aggLoopAux_one, h2]
  refine ⟨_, hfull, rfl, rfl,
    decYearly arg_year arg_month arg_demographics nodal_data (a + 11)
      ⟨s0.table,
       Finset.sum (Finset.range 11) (fun j => dCount arg_demographics nodal_data (a + j)),
       Finset.sum (Finset.range 11) (fun j => eCount arg_demographics nodal_data (a + j))⟩,
    List.getLast?_concat _, ?_, ?_, ?_⟩
  · simp only [decYearly, Nat.add_sub_cancel, sum_range14_split]
  · simp only [decYearly, Nat.add_sub_cancel, sum_range14_split]
  · intro out hout
    rw [aggregate,
      show nodal_data.length - 4 = (a + 12) + (nodal_data.length - 4 - (a + 12)) from by omega,
      loop_append arg_year arg_month arg_demographics nodal_data (a + 12)
        (nodal_data.length - 4 - (a + 12)) 0 ⟨[], 0, 0⟩,
      hfull, Option.some_bind] at hout
    rcases hrest : aggLoopAux arg_year arg_month arg_demographics nodal_data
        (nodal_data.length - 4 - (a + 12)) (0 + (a + 12))
        ⟨s0.table ++ [decYearly arg_year arg_month arg_demographics nodal_data (a + 11)
          ⟨s0.table,
           Finset.sum (Finset.range 11) (fun j => dCount arg_demographics nodal_data (a + j)),
           Finset.sum (Finset.range 11) (fun j => eCount arg_demographics nodal_data (a + j))⟩],
          0, 0⟩ with _ | s3
    · rw [hrest] at hout
      cases hout
    · rw [hrest] at hout
      obtain ⟨t, ht⟩ := loop_table arg_year arg_month nodal_data hdemo
        (nodal_data.length - 4 - (a + 12)) (0 + (a + 12)) _ s3 (by omega) hrest
      have hmem : decYearly arg_year arg_month arg_demographics nodal_data (a + 11)
          ⟨s0.table,
           Finset.sum (Finset.range 11) (fun j => dCount arg_demographics nodal_data (a + j)),
           Finset.sum (Finset.range 11) (fun j => eCount arg_demographics nodal_data (a + j))⟩
          ∈ s3.table := by
        rw [ht]
        simp
      have hout2 : out = s3.table := by
        simpa using hout.symm
      rw [hout2]
      exact hmem

/-- Sixteen contiguous monthly observations at time steps 1 through 16: the
December of the first full calendar year sits at index 11 and has four further
observations after it. -/
def wNodes : List Node := (List.range 16).map (fun k => mkN (1 + (k : Int)))

/-- Claim C1 witness: the theorem applied to the concrete 16-month sequence,
with the year-end at index 11. -/
theorem C1_lag_corrected_cumulative_sums_witness :
    ∃ s, aggLoopAux 2014 600 "TOTAL" wNodes (11 + 1) 0 ⟨[], 0, 0⟩ = some s ∧
      s.newdiag = 0 ∧ s.newenroll = 0 ∧
      ∃ y, s.table.getLast? = some y ∧
        y.new_diagnosis = Finset.sum (Finset.range 14)
          (fun j => dCount "TOTAL" wNodes (11 - 11 + j)) ∧
        y.enrolled_in_30 = Finset.sum (Finset.range 14)
          (fun j => eCount "TOTAL" wNodes (11 - 11 + j)) ∧
        ∀ out, aggregate 2014 600 "TOTAL" wNodes = some out → y ∈ out :=
  C1_lag_corrected_cumulative_sums 2014 600 "TOTAL" wNodes 1 11
    (by unfold validDemo; decide) (by decide) (by decide) (by decide) (by decide)

end ART
